import Mathlib

/-!
Shallow embedding of `src/run_gemini.py`, a 25-line straight-line Python
script that initializes the Vertex AI SDK, binds a model handle, sends one
fixed prompt, and prints the response text behind two header lines.

The script's own code is pure sequencing and printing; the behavior of the
remote client library (`vertexai.init`, `GenerativeModel`,
`generate_content`, and the `response.text` property) is not part of this
repository, so it is abstracted as a `Service` record of fallible
operations.  An execution is modelled as the list of observable events it
performs (calls issued and lines printed) together with an `Except` result:
`Except.ok ()` is a clean exit (process status 0) and `Except.error e` is an
uncaught Python exception `e` propagating to the process boundary
(non-zero status), since the script contains no try/except.
-/

namespace RunGemini

/-- Error classes of the remote client library, taken from the spec's error
taxonomy (ConfigurationError, AuthenticationError, NotFoundError,
PermissionError, TransientServiceError, ContentPolicyError,
InvalidArgument).  The script never inspects these; they only propagate. -/
inductive Err where
  | configurationError
  | authenticationError
  | notFoundError
  | permissionError
  | transientServiceError
  | contentPolicyError
  | invalidArgument
  deriving DecidableEq, Repr

instance {ε α : Type} [DecidableEq ε] [DecidableEq α] :
    DecidableEq (Except ε α) := fun x y =>
  match x, y with
  | Except.error a, Except.error b =>
      if h : a = b then isTrue (h ▸ rfl)
      else isFalse (fun hc => h (Except.error.inj hc))
  | Except.error _, Except.ok _ => isFalse (fun hc => Except.noConfusion hc)
  | Except.ok _, Except.error _ => isFalse (fun hc => Except.noConfusion hc)
  | Except.ok a, Except.ok b =>
      if h : a = b then isTrue (h ▸ rfl)
      else isFalse (fun hc => h (Except.ok.inj hc))

/-- The response object returned by `generate_content`.  Its `text` field
models the Python property `response.text`, whose read happens only at
line 25 and can itself raise (e.g. when the response was safety-filtered),
hence `Except`. -/
structure Response where
  text : Except Err String
  deriving DecidableEq, Repr

/-- Modelled from the spec: the remote client library, absent from `src/`.
`init` is `vertexai.init(project, location)`; `selectModel` is the
`GenerativeModel(name)` binding, which per the spec fails for an invalid or
inaccessible model name; `generate` is the synchronous
`generate_content(prompt)` network call on the named model. -/
structure Service where
  init : String → String → Except Err Unit
  selectModel : String → Except Err Unit
  generate : String → String → Except Err Response

/-- Observable events of one process execution: outbound calls to the
remote service and lines written to standard output (Python `print` writes
its argument followed by a newline). -/
inductive Event where
  | initCall (project region : String)
  | selectCall (name : String)
  | generateCall (modelName promptText : String)
  | printLine (line : String)
  deriving DecidableEq, Repr

/-- `PROJECT_ID = "optimum-rock-467801-f1"` (line 5). -/
def PROJECT_ID : String := "optimum-rock-467801-f1"

/-- `LOCATION = "us-central1"` (line 6). -/
def LOCATION : String := "us-central1"

/-- The model name literal `"gemini-2.5-pro"` (line 11). -/
def MODEL_NAME : String := "gemini-2.5-pro"

/-- The triple-quoted prompt literal (lines 14-17).  The `"""` opening is
followed immediately by a newline and the closing `"""` is preceded by one,
so the string begins and ends with a newline character. -/
def prompt : String :=
  "\nWrite a short, professional email to a client named Alex to confirm the meeting for next Tuesday.\nMention that you\x27re looking forward to discussing the new project.\n"

/-- The four inputs of the run.  The script hardcodes all four as literals
(`defaultConfig` below); the spec's external-interface section exposes them
as configuration, so the embedding is parameterized by them. -/
structure Config where
  projectId : String
  region : String
  modelName : String
  promptText : String
  deriving DecidableEq, Repr

/-- The hardcoded configuration of `src/run_gemini.py`. -/
def defaultConfig : Config :=
  { projectId := PROJECT_ID
    region := LOCATION
    modelName := MODEL_NAME
    promptText := prompt }

/-- Lines 23-25 of the script:
`print("Model Response:")`, `print("---------------")`,
`print(response.text)`.  The two header prints execute before the
`response.text` property is read, so if that read raises, the headers have
already been written and the error propagates. -/
def render (resp : Response) : List Event × Except Err Unit :=
  let hdr := [Event.printLine "Model Response:", Event.printLine "---------------"]
  match resp.text with
  | Except.error e => (hdr, Except.error e)
  | Except.ok t => (hdr ++ [Event.printLine t], Except.ok ())

/-- The whole script as a function of the configuration and the remote
service: `vertexai.init` (line 8), `GenerativeModel(...)` (line 11),
`generate_content(prompt)` (line 20), then `render` (lines 23-25).  Any
step's error aborts the rest and becomes the process result, since nothing
is caught locally. -/
def runScript (cfg : Config) (svc : Service) : List Event × Except Err Unit :=
  let t0 := [Event.initCall cfg.projectId cfg.region]
  match svc.init cfg.projectId cfg.region with
  | Except.error e => (t0, Except.error e)
  | Except.ok _ =>
    let t1 := t0 ++ [Event.selectCall cfg.modelName]
    match svc.selectModel cfg.modelName with
    | Except.error e => (t1, Except.error e)
    | Except.ok _ =>
      let t2 := t1 ++ [Event.generateCall cfg.modelName cfg.promptText]
      match svc.generate cfg.modelName cfg.promptText with
      | Except.error e => (t2, Except.error e)
      | Except.ok resp =>
        let r := render resp
        (t2 ++ r.1, r.2)

/-- The script exactly as shipped: `runScript` at its hardcoded literals. -/
def runGemini (svc : Service) : List Event × Except Err Unit :=
  runScript defaultConfig svc

/-- The lines written to standard output along a trace, in order. -/
def printedLines (tr : List Event) : List String :=
  tr.filterMap fun e =>
    match e with
    | Event.printLine s => some s
    | _ => none

/-- The full standard-output text of a trace: each printed line followed by
the newline that Python `print` appends. -/
def stdoutOf (tr : List Event) : String :=
  String.join ((printedLines tr).map (fun s => s ++ "\n"))

/-- The prompt strings submitted to the generate-content endpoint along a
trace, in order. -/
def generatePrompts (tr : List Event) : List String :=
  tr.filterMap fun e =>
    match e with
    | Event.generateCall _ p => some p
    | _ => none

/-- How many generate-content network calls a trace contains. -/
def generateCallCount (tr : List Event) : Nat :=
  (generatePrompts tr).length

/-- The process exit status: 0 on a clean exit, 1 (Python's status for an
uncaught exception) otherwise. -/
def exitCode (r : Except Err Unit) : Nat :=
  match r with
  | Except.ok _ => 0
  | Except.error _ => 1

/-- One process execution appending to a pre-existing standard-output
stream: the process only ever appends its own printed lines.  Used to state
that consecutive runs do not influence each other through any carried
state. -/
def processRun (cfg : Config) (svc : Service) (priorOut : List String) :
    List String × Nat :=
  let r := runScript cfg svc
  (priorOut ++ printedLines r.1, exitCode r.2)

/-- A service for which every step succeeds and the response text is `t`. -/
def svcOk (t : String) : Service :=
  { init := fun _ _ => Except.ok ()
    selectModel := fun _ => Except.ok ()
    generate := fun _ _ => Except.ok { text := Except.ok t } }

/-- A service whose initialization fails (e.g. bad credentials). -/
def svcInitFail : Service :=
  { init := fun _ _ => Except.error Err.authenticationError
    selectModel := fun _ => Except.ok ()
    generate := fun _ _ => Except.ok { text := Except.ok "Hello!" } }

/-- A service for which binding the model handle fails (invalid name). -/
def svcSelectFail : Service :=
  { init := fun _ _ => Except.ok ()
    selectModel := fun _ => Except.error Err.notFoundError
    generate := fun _ _ => Except.ok { text := Except.ok "Hello!" } }

/-- A service whose generate call fails (unreachable service). -/
def svcGenFail : Service :=
  { init := fun _ _ => Except.ok ()
    selectModel := fun _ => Except.ok ()
    generate := fun _ _ => Except.error Err.transientServiceError }

/-- A service whose generate call returns a response whose `text` read
raises (safety-filtered response). -/
def svcTextFail : Service :=
  { init := fun _ _ => Except.ok ()
    selectModel := fun _ => Except.ok ()
    generate := fun _ _ => Except.ok { text := Except.error Err.contentPolicyError } }

/-- A service rejecting empty prompts with an InvalidArgument-class error,
as the spec requires of the remote endpoint, and succeeding otherwise. -/
def svcRejectEmpty : Service :=
  { init := fun _ _ => Except.ok ()
    selectModel := fun _ => Except.ok ()
    generate := fun _ p =>
      if p = "" then Except.error Err.invalidArgument
      else Except.ok { text := Except.ok "Hello!" } }

/-- Claim C1: on a successful run whose response text field holds `t`, the
standard output is exactly the two fixed header lines `"Model Response:"`
and `"---------------"` followed by the raw text `t`, each line
newline-terminated, with no transformation of `t`. -/
theorem c1_success_stdout_exact (cfg : Config) (svc : Service) (resp : Response) (t : String)
    (hinit : svc.init cfg.projectId cfg.region = Except.ok ())
    (hsel : svc.selectModel cfg.modelName = Except.ok ())
    (hgen : svc.generate cfg.modelName cfg.promptText = Except.ok resp)
    (htext : resp.text = Except.ok t) :
    stdoutOf (runScript cfg svc).1 = "Model Response:\n---------------\n" ++ t ++ "\n" ∧
    (runScript cfg svc).2 = Except.ok () := by
  have hlit : ("Model Response:\n" : String) ++ "---------------\n" =
      "Model Response:\n---------------\n" := by decide
  constructor
  · simp [runScript, render, hinit, hsel, hgen, htext, stdoutOf, printedLines,
      String.join, String.empty_append, String.append_assoc, ← hlit]
  · simp [runScript, render, hinit, hsel, hgen, htext]

/-- Witness for C1 at a concrete all-succeeding service with text
`"Hello!"`. -/
theorem c1_witness :
    stdoutOf (runScript defaultConfig (svcOk "Hello!")).1 =
      "Model Response:\n---------------\n" ++ "Hello!" ++ "\n" ∧
    (runScript defaultConfig (svcOk "Hello!")).2 = Except.ok () :=
  c1_success_stdout_exact defaultConfig (svcOk "Hello!")
    { text := Except.ok "Hello!" } "Hello!" rfl rfl rfl rfl

/-- Claim C2 counterexample: rendering a response whose text is `"Hello!"`
writes three lines — the two header lines and the text — so the output is
not a single header line followed by the text (which would be two lines). -/
theorem c2_counterexample :
    printedLines (render { text := Except.ok "Hello!" }).1 =
      ["Model Response:", "---------------", "Hello!"] ∧
    (printedLines (render { text := Except.ok "Hello!" }).1).length ≠ 2 := by
  exact ⟨rfl, by decide⟩

/-- Claim C2 (amended): render writes the two fixed header lines and then
the response's text to standard output, with no transformation and no
validation of the text. -/
theorem c2_render_two_headers_and_text (resp : Response) (t : String)
    (htext : resp.text = Except.ok t) :
    printedLines (render resp).1 = ["Model Response:", "---------------", t] ∧
    (render resp).2 = Except.ok () := by
  simp [render, htext, printedLines]

/-- Witness for the amended C2 at the concrete text `"Hello!"`. -/
theorem c2_witness :
    printedLines (render { text := Except.ok "Hello!" }).1 =
      ["Model Response:", "---------------", "Hello!"] ∧
    (render { text := Except.ok "Hello!" }).2 = Except.ok () :=
  c2_render_two_headers_and_text { text := Except.ok "Hello!" } "Hello!" rfl

/-- Claim C10: if reading the response's text field raises after generate
has returned, the two header lines have already been written, so the
failing run leaves exactly the two headers as partial output and the error
propagates. -/
theorem c10_text_read_failure_partial_output (cfg : Config) (svc : Service)
    (resp : Response) (e : Err)
    (hinit : svc.init cfg.projectId cfg.region = Except.ok ())
    (hsel : svc.selectModel cfg.modelName = Except.ok ())
    (hgen : svc.generate cfg.modelName cfg.promptText = Except.ok resp)
    (htext : resp.text = Except.error e) :
    printedLines (runScript cfg svc).1 = ["Model Response:", "---------------"] ∧
    (runScript cfg svc).2 = Except.error e := by
  simp [runScript, render, hinit, hsel, hgen, htext, printedLines]

/-- Witness for C10 at a concrete service whose response text read raises a
content-policy error. -/
theorem c10_witness :
    printedLines (runScript defaultConfig svcTextFail).1 =
      ["Model Response:", "---------------"] ∧
    (runScript defaultConfig svcTextFail).2 = Except.error Err.contentPolicyError :=
  c10_text_read_failure_partial_output defaultConfig svcTextFail
    { text := Except.error Err.contentPolicyError } Err.contentPolicyError rfl rfl rfl rfl

/-- Claim C3 counterexample: in an execution whose initialization fails,
the generate operation is invoked zero times, not exactly once. -/
theorem c3_counterexample :
    generateCallCount (runScript defaultConfig svcInitFail).1 = 0 ∧ (0 : Nat) ≠ 1 := by
  exact ⟨rfl, by decide⟩

/-- Claim C3 (amended): in every execution the generate operation is
invoked at most once, and exactly once in any execution where
initialization and model selection succeed; every issued prompt is the
configured prompt text, so no history accumulates. -/
theorem c3_generate_at_most_once (cfg : Config) (svc : Service) :
    generateCallCount (runScript cfg svc).1 ≤ 1 ∧
    (∀ p, p ∈ generatePrompts (runScript cfg svc).1 → p = cfg.promptText) ∧
    (svc.init cfg.projectId cfg.region = Except.ok () →
      svc.selectModel cfg.modelName = Except.ok () →
      generateCallCount (runScript cfg svc).1 = 1) := by
  rcases hinit : svc.init cfg.projectId cfg.region with e | u
  · refine ⟨?_, ?_, ?_⟩ <;>
      simp [runScript, hinit, generateCallCount, generatePrompts]
  · rcases hsel : svc.selectModel cfg.modelName with e | u
    · refine ⟨?_, ?_, ?_⟩ <;>
        simp [runScript, hinit, hsel, generateCallCount, generatePrompts]
    · rcases hgen : svc.generate cfg.modelName cfg.promptText with e | resp
      · refine ⟨?_, ?_, ?_⟩ <;>
          simp [runScript, hinit, hsel, hgen, generateCallCount, generatePrompts]
      · rcases htext : resp.text with e | t <;>
        · refine ⟨?_, ?_, ?_⟩ <;>
            simp [runScript, render, hinit, hsel, hgen, htext,
              generateCallCount, generatePrompts]

/-- Witness for the amended C3 at an all-succeeding concrete service. -/
theorem c3_witness :
    generateCallCount (runScript defaultConfig (svcOk "Hello!")).1 = 1 :=
  (c3_generate_at_most_once defaultConfig (svcOk "Hello!")).2.2 rfl rfl

/-- Claim C4: for an invalid model name — one the spec-modelled service
rejects at model selection with a NotFoundError or PermissionError — the
run performs no generate-content network call at all and does not
succeed. -/
theorem c4_invalid_model_fail_fast (cfg : Config) (svc : Service)
    (valid : String → Prop)
    (hspec : ∀ n, ¬ valid n → ∃ e, (e = Err.notFoundError ∨ e = Err.permissionError) ∧
      svc.selectModel n = Except.error e)
    (hinvalid : ¬ valid cfg.modelName) :
    generateCallCount (runScript cfg svc).1 = 0 ∧
    (runScript cfg svc).2 ≠ Except.ok () := by
  obtain ⟨e, _, hsel⟩ := hspec cfg.modelName hinvalid
  rcases hinit : svc.init cfg.projectId cfg.region with e0 | u
  · constructor <;> simp [runScript, hinit, generateCallCount, generatePrompts]
  · constructor <;> simp [runScript, hinit, hsel, generateCallCount, generatePrompts]

/-- Witness for C4: a concrete service that only accepts the model name
`"model-v1"` rejects the script's hardcoded `"gemini-2.5-pro"` before any
generate call. -/
theorem c4_witness :
    generateCallCount (runScript defaultConfig svcSelectFail).1 = 0 ∧
    (runScript defaultConfig svcSelectFail).2 ≠ Except.ok () :=
  c4_invalid_model_fail_fast defaultConfig svcSelectFail (fun n => n = "model-v1")
    (fun _ _ => ⟨Err.notFoundError, Or.inl rfl, rfl⟩) (by decide)

/-- Claim C5: whichever step fails first — initialization, model selection,
generation, or the text read — its error is the process result unchanged
(nothing is caught locally) and the exit status is non-zero; when every
step succeeds the process exits with status 0. -/
theorem c5_error_propagation_and_exit (cfg : Config) (svc : Service) :
    (∀ e, svc.init cfg.projectId cfg.region = Except.error e →
      (runScript cfg svc).2 = Except.error e ∧ exitCode (runScript cfg svc).2 = 1) ∧
    (∀ e, svc.init cfg.projectId cfg.region = Except.ok () →
      svc.selectModel cfg.modelName = Except.error e →
      (runScript cfg svc).2 = Except.error e ∧ exitCode (runScript cfg svc).2 = 1) ∧
    (∀ e, svc.init cfg.projectId cfg.region = Except.ok () →
      svc.selectModel cfg.modelName = Except.ok () →
      svc.generate cfg.modelName cfg.promptText = Except.error e →
      (runScript cfg svc).2 = Except.error e ∧ exitCode (runScript cfg svc).2 = 1) ∧
    (∀ resp e, svc.init cfg.projectId cfg.region = Except.ok () →
      svc.selectModel cfg.modelName = Except.ok () →
      svc.generate cfg.modelName cfg.promptText = Except.ok resp →
      resp.text = Except.error e →
      (runScript cfg svc).2 = Except.error e ∧ exitCode (runScript cfg svc).2 = 1) ∧
    (∀ resp t, svc.init cfg.projectId cfg.region = Except.ok () →
      svc.selectModel cfg.modelName = Except.ok () →
      svc.generate cfg.modelName cfg.promptText = Except.ok resp →
      resp.text = Except.ok t →
      (runScript cfg svc).2 = Except.ok () ∧ exitCode (runScript cfg svc).2 = 0) := by
  refine ⟨?_, ?_, ?_, ?_, ?_⟩
  · intro e h1
    simp [runScript, h1, exitCode]
  · intro e h1 h2
    simp [runScript, h1, h2, exitCode]
  · intro e h1 h2 h3
    simp [runScript, h1, h2, h3, exitCode]
  · intro resp e h1 h2 h3 h4
    simp [runScript, render, h1, h2, h3, h4, exitCode]
  · intro resp t h1 h2 h3 h4
    simp [runScript, render, h1, h2, h3, h4, exitCode]

/-- Witness for C5: a failing generate run exits 1 carrying the service
error; an all-succeeding run exits 0. -/
theorem c5_witness :
    ((runScript defaultConfig svcGenFail).2 = Except.error Err.transientServiceError ∧
      exitCode (runScript defaultConfig svcGenFail).2 = 1) ∧
    ((runScript defaultConfig (svcOk "Hello!")).2 = Except.ok () ∧
      exitCode (runScript defaultConfig (svcOk "Hello!")).2 = 0) :=
  ⟨(c5_error_propagation_and_exit defaultConfig svcGenFail).2.2.1
      Err.transientServiceError rfl rfl rfl,
    (c5_error_propagation_and_exit defaultConfig (svcOk "Hello!")).2.2.2.2
      { text := Except.ok "Hello!" } "Hello!" rfl rfl rfl rfl⟩

/-- Claim C6: when the generate call fails, nothing at all has been written
to standard output — the printed-line list is empty and the output text is
the empty string. -/
theorem c6_generate_failure_no_output (cfg : Config) (svc : Service) (e : Err)
    (hinit : svc.init cfg.projectId cfg.region = Except.ok ())
    (hsel : svc.selectModel cfg.modelName = Except.ok ())
    (hgen : svc.generate cfg.modelName cfg.promptText = Except.error e) :
    printedLines (runScript cfg svc).1 = [] ∧
    stdoutOf (runScript cfg svc).1 = "" := by
  constructor <;>
    simp [runScript, hinit, hsel, hgen, printedLines, stdoutOf, String.join]

/-- Witness for C6 at a concrete service whose generate call raises a
transient service error. -/
theorem c6_witness :
    printedLines (runScript defaultConfig svcGenFail).1 = [] ∧
    stdoutOf (runScript defaultConfig svcGenFail).1 = "" :=
  c6_generate_failure_no_output defaultConfig svcGenFail
    Err.transientServiceError rfl rfl rfl

/-- Claim C7: the run is deterministic and carries no hidden state — what a
run appends to standard output and its exit status are the same function of
the inputs regardless of anything a previous run left behind, so two
complete runs with identical inputs against the same (deterministic)
service produce identical output text. -/
theorem c7_deterministic_no_hidden_state (cfg : Config) (svc : Service)
    (prior1 prior2 : List String) :
    ((processRun cfg svc prior1).1).drop prior1.length =
      ((processRun cfg svc prior2).1).drop prior2.length ∧
    (processRun cfg svc prior1).2 = (processRun cfg svc prior2).2 := by
  constructor
  · simp [processRun, List.drop_left]
  · simp [processRun]

/-- Claim C8: with the spec-modelled service rejecting empty prompts, a run
configured with an empty prompt text still issues the generate-content
network call (emptiness is not checked locally before the call) and that
call fails with an InvalidArgument-class error that becomes the process
result. -/
theorem c8_empty_prompt_invalid_argument (cfg : Config) (svc : Service)
    (hempty : cfg.promptText = "")
    (hinit : svc.init cfg.projectId cfg.region = Except.ok ())
    (hsel : svc.selectModel cfg.modelName = Except.ok ())
    (hgen : ∀ m, svc.generate m "" = Except.error Err.invalidArgument) :
    Event.generateCall cfg.modelName "" ∈ (runScript cfg svc).1 ∧
    (runScript cfg svc).2 = Except.error Err.invalidArgument := by
  constructor <;> simp [runScript, hinit, hsel, hempty, hgen]

/-- The script's configuration with the prompt replaced by the empty
string, used to witness C8. -/
def emptyPromptConfig : Config := { defaultConfig with promptText := "" }

/-- Witness for C8 at a concrete empty-prompt configuration and a service
that rejects empty prompts. -/
theorem c8_witness :
    Event.generateCall emptyPromptConfig.modelName "" ∈
      (runScript emptyPromptConfig svcRejectEmpty).1 ∧
    (runScript emptyPromptConfig svcRejectEmpty).2 =
      Except.error Err.invalidArgument :=
  c8_empty_prompt_invalid_argument emptyPromptConfig svcRejectEmpty
    rfl rfl rfl (fun _ => rfl)

/-- Claim C9: the submitted prompt is the fixed non-empty literal of lines
14-17, beginning and ending with the newline introduced by the
triple-quoted literal; every generate call any run issues carries exactly
this literal, untrimmed. -/
theorem c9_prompt_literal_shape :
    prompt ≠ "" ∧
    prompt.toList.head? = some '\n' ∧
    prompt.toList.getLast? = some '\n' ∧
    ∀ svc : Service, generatePrompts (runGemini svc).1 = [] ∨
      generatePrompts (runGemini svc).1 = [prompt] := by
  refine ⟨by decide, by decide, by decide, ?_⟩
  intro svc
  rcases hinit : svc.init PROJECT_ID LOCATION with e | u
  · left
    simp [runGemini, runScript, defaultConfig, hinit, generatePrompts]
  · rcases hsel : svc.selectModel MODEL_NAME with e | u
    · left
      simp [runGemini, runScript, defaultConfig, hinit, hsel, generatePrompts]
    · rcases hgen : svc.generate MODEL_NAME prompt with e | resp
      · right
        simp [runGemini, runScript, defaultConfig, hinit, hsel, hgen, generatePrompts]
      · rcases htext : resp.text with e | t
        · right
          simp [runGemini, runScript, render, defaultConfig, hinit, hsel, hgen, htext,
            generatePrompts]
        · right
          simp [runGemini, runScript, render, defaultConfig, hinit, hsel, hgen, htext,
            generatePrompts]

end RunGemini
